import Mathlib

/-!
Verification development for the golf shot-analysis repository.

The embedding covers:
* the data model of `src/webapp/src/api/trackman.ts` (`Measurement`, `Stroke`),
* the statistics engine of `src/webapp/src/utils/shotAnalysis.ts`, which exists
  in two parallel versions separated by a document separator: a median-labelled
  version (namespace `ShotAnalysis`) and a mean-labelled version (namespace
  `ShotAnalysisAvg`),
* the chart-projection computations of
  `src/webapp/src/components/ShotVisualizations.tsx` (namespace `Viz`).

JavaScript numbers are modelled as exact rationals (`ℚ`); `Math.sqrt` is the
only irrational operation and is modelled by `Real.sqrt` on the rational
radicand.  Optional/missing fields are modelled by `Option ℚ`; JS `undefined`
is `none` and the extraction pipelines skip `none` exactly as the source
filters out non-numeric entries.
-/

namespace Golf

/-- The `Measurement` interface of `src/webapp/src/api/trackman.ts` (lines
219–239): every channel is optional. -/
structure Measurement where
  ClubSpeed : Option ℚ := none
  AttackAngle : Option ℚ := none
  BallSpeed : Option ℚ := none
  LaunchAngle : Option ℚ := none
  LaunchDirection : Option ℚ := none
  SpinRate : Option ℚ := none
  SpinAxis : Option ℚ := none
  Carry : Option ℚ := none
  Total : Option ℚ := none
  CarrySide : Option ℚ := none
  TotalSide : Option ℚ := none
  MaxHeight : Option ℚ := none
  HangTime : Option ℚ := none
  LandingAngle : Option ℚ := none
  SmashFactor : Option ℚ := none
  ClubPath : Option ℚ := none
  FaceAngle : Option ℚ := none
  FaceToPath : Option ℚ := none
  DynamicLoft : Option ℚ := none
deriving DecidableEq

/-- The `Stroke` interface of `src/webapp/src/api/trackman.ts` (lines
241–247). -/
structure Stroke where
  Id : String := ""
  Time : String := ""
  Club : String := ""
  Measurement : Option Golf.Measurement := none
  NormalizedMeasurement : Option Golf.Measurement := none
deriving DecidableEq

/-- `getMeasurement` of `ShotVisualizations.tsx` (lines 16–18); the same
expression `s.Measurement || s.NormalizedMeasurement` is inlined in
`extractValues` of `shotAnalysis.ts`: prefer the raw measurement, fall back to
the normalized one. -/
def getMeasurement (s : Stroke) : Option Measurement :=
  s.Measurement <|> s.NormalizedMeasurement

/-- `Math.min(...values)` on a spread list, as used throughout the source; the
source only ever applies it to non-empty lists (the default for `[]` is
irrelevant to every claim). -/
def listMin : List ℚ → ℚ
  | [] => 0
  | v :: vs => vs.foldl Min.min v

/-- `Math.max(...values)` on a spread list; see `listMin`. -/
def listMax : List ℚ → ℚ
  | [] => 0
  | v :: vs => vs.foldl Max.max v

/-- Contiguous-sublist test on character lists (helper for `stringIncludes`). -/
def containsChars (s pat : List Char) : Bool :=
  match s with
  | [] => pat.isEmpty
  | _ :: t => pat.isPrefixOf s || containsChars t pat

/-- Substring test modelling JS `String.prototype.includes`. -/
def stringIncludes (s pat : String) : Bool :=
  containsChars s.toList pat.toList

/-- JS `Number.prototype.toFixed`: round `|x| * 10^d` half-up to an integer and
print it with a decimal point inserted before the last `d` digits (ECMA-262
`Number.prototype.toFixed`, which keeps the sign even for a zero result). -/
noncomputable def toFixed (x : ℝ) (fracDigits : ℕ) : String :=
  let sign := if x < 0 then "-" else ""
  let n : ℕ := (Int.floor (|x| * 10 ^ fracDigits + 1 / 2)).toNat
  if fracDigits = 0 then sign ++ toString n
  else
    let fracStr := toString (n % 10 ^ fracDigits)
    sign ++ toString (n / 10 ^ fracDigits) ++ "." ++
      String.mk (List.replicate (fracDigits - fracStr.length) '0') ++ fracStr

namespace ShotAnalysis

/-- `Stats` of `shotAnalysis.ts` (median-labelled version, lines 5–11).  The
source stores `stdDev = Math.sqrt(meanSquaredDiff)`; since the radicand is the
only rational part we keep `meanSquaredDiff` in the structure and expose the
stored square root as the derived field `Stats.stdDev` below. -/
structure Stats where
  median : ℚ
  min : ℚ
  max : ℚ
  meanSquaredDiff : ℚ
  values : List ℚ
deriving DecidableEq

/-- The `stdDev` field of the source `Stats` record:
`Math.sqrt(meanSquaredDiff)` (line 57). -/
noncomputable def Stats.stdDev (s : Stats) : ℝ :=
  Real.sqrt (s.meanSquaredDiff : ℝ)

/-- `calculateMedian` of `shotAnalysis.ts` (lines 41–45): sort ascending, take
the middle element for odd length, the mean of the two middle elements for even
length.  (This version has no empty-list guard; its only caller guards.) -/
def calculateMedian (values : List ℚ) : ℚ :=
  let sorted := values.insertionSort (fun a b => a ≤ b)
  let mid := sorted.length / 2
  if sorted.length % 2 ≠ 0 then sorted.getD mid 0
  else (sorted.getD (mid - 1) 0 + sorted.getD mid 0) / 2

/-- `calculateStats` of `shotAnalysis.ts`, median-labelled version (lines
47–60): `undefined` on an empty input, otherwise median, `Math.min`/`Math.max`
extremes and the mean squared deviation from the median with divisor
`values.length`. -/
def calculateStats (values : List ℚ) : Option Stats :=
  match values with
  | [] => none
  | v :: vs =>
    let median := calculateMedian (v :: vs)
    let squaredDiffs := (v :: vs).map (fun x => (x - median) ^ 2)
    some
      { median := median
        min := vs.foldl Min.min v
        max := vs.foldl Max.max v
        meanSquaredDiff := squaredDiffs.foldl (· + ·) 0 / ((v :: vs).length : ℚ)
        values := v :: vs }

/-- `ClubAnalysis` of `shotAnalysis.ts` (lines 13–39). -/
structure ClubAnalysis where
  shotCount : ℕ
  carryStats : Option Stats := none
  totalStats : Option Stats := none
  carrySideStats : Option Stats := none
  totalSideStats : Option Stats := none
  clubSpeedStats : Option Stats := none
  ballSpeedStats : Option Stats := none
  smashFactorStats : Option Stats := none
  launchAngleStats : Option Stats := none
  launchDirectionStats : Option Stats := none
  spinRateStats : Option Stats := none
  spinAxisStats : Option Stats := none
  clubPathStats : Option Stats := none
  faceAngleStats : Option Stats := none
  faceToPathStats : Option Stats := none
  attackAngleStats : Option Stats := none
  maxHeightStats : Option Stats := none
  landingAngleStats : Option Stats := none
deriving DecidableEq

/-- `extractValues` of `shotAnalysis.ts` (lines 62–66): per stroke, read the
channel off the preferred measurement record and keep only numeric values. -/
def extractValues (strokes : List Stroke) (key : Measurement → Option ℚ) :
    List ℚ :=
  strokes.filterMap (fun s => (getMeasurement s).bind key)

/-- `analyzeClubGroup` of `shotAnalysis.ts` (lines 68–89). -/
def analyzeClubGroup (strokes : List Stroke) : ClubAnalysis :=
  { shotCount := strokes.length
    carryStats := calculateStats (extractValues strokes Measurement.Carry)
    totalStats := calculateStats (extractValues strokes Measurement.Total)
    carrySideStats := calculateStats (extractValues strokes Measurement.CarrySide)
    totalSideStats := calculateStats (extractValues strokes Measurement.TotalSide)
    clubSpeedStats := calculateStats (extractValues strokes Measurement.ClubSpeed)
    ballSpeedStats := calculateStats (extractValues strokes Measurement.BallSpeed)
    smashFactorStats := calculateStats (extractValues strokes Measurement.SmashFactor)
    launchAngleStats := calculateStats (extractValues strokes Measurement.LaunchAngle)
    launchDirectionStats := calculateStats (extractValues strokes Measurement.LaunchDirection)
    spinRateStats := calculateStats (extractValues strokes Measurement.SpinRate)
    spinAxisStats := calculateStats (extractValues strokes Measurement.SpinAxis)
    clubPathStats := calculateStats (extractValues strokes Measurement.ClubPath)
    faceAngleStats := calculateStats (extractValues strokes Measurement.FaceAngle)
    faceToPathStats := calculateStats (extractValues strokes Measurement.FaceToPath)
    attackAngleStats := calculateStats (extractValues strokes Measurement.AttackAngle)
    maxHeightStats := calculateStats (extractValues strokes Measurement.MaxHeight)
    landingAngleStats := calculateStats (extractValues strokes Measurement.LandingAngle) }

/-- `formatNum` of `shotAnalysis.ts` (lines 91–93): `n.toFixed(decimals)`;
the source's default argument `decimals = 1` is passed explicitly at every
call site below. -/
noncomputable def formatNum (n : ℝ) (decimals : ℕ) : String :=
  toFixed n decimals

/-- `getConsistencyRating` (lines 95–101): coefficient of variation in percent
against the 3 / 6 / 10 bands. -/
noncomputable def getConsistencyRating (stdDev central : ℝ) : String :=
  let cv := (stdDev / |central|) * 100
  if cv < 3 then "excellent"
  else if cv < 6 then "good"
  else if cv < 10 then "moderate"
  else "inconsistent"

/-- `getDispersionRating` (lines 103–108): 5 / 10 / 18 bands. -/
noncomputable def getDispersionRating (stdDev : ℝ) : String :=
  if stdDev < 5 then "tight"
  else if stdDev < 10 then "good"
  else if stdDev < 18 then "moderate"
  else "wide"

/-- `getPathTendency` (lines 110–116). -/
def getPathTendency (median : ℚ) : String :=
  if median < -3 then "strongly in-to-out"
  else if median < -1 then "slightly in-to-out"
  else if median > 3 then "strongly out-to-in"
  else if median > 1 then "slightly out-to-in"
  else "neutral"

/-- `getFaceTendency` (lines 118–124). -/
def getFaceTendency (median : ℚ) : String :=
  if median < -3 then "significantly closed"
  else if median < -1 then "slightly closed"
  else if median > 3 then "significantly open"
  else if median > 1 then "slightly open"
  else "square"

/-- `getShotShape` (lines 126–133): the base label depends only on the
face-to-path angle (below −2 draw, above 2 fade, else straight) and the
prefix `"strong "` is added when its magnitude exceeds 5; the club-path
argument is bound but never read. -/
def getShotShape (_clubPath faceToPath : ℚ) : String :=
  let shape := if faceToPath < -2 then "draw"
    else if faceToPath > 2 then "fade" else "straight"
  let severity := if |faceToPath| > 5 then "strong " else ""
  severity ++ shape

/-- `getSpinAssessment` (lines 135–155). -/
def getSpinAssessment (spinRate : ℚ) (club : String) : String :=
  let clubLower := club.toLower
  if stringIncludes clubLower "driver" then
    if spinRate < 2000 then "very low (may balloon or have limited carry)"
    else if spinRate < 2500 then "optimal for distance"
    else if spinRate < 3000 then "slightly high"
    else "too high (losing distance)"
  else if stringIncludes clubLower "iron" || stringIncludes clubLower "wedge" then
    if spinRate < 4000 then "low (may struggle to hold greens)"
    else if spinRate < 7000 then "good"
    else if spinRate < 9000 then "high (good stopping power)"
    else "very high"
  else "within normal range"

/-- `getLaunchAssessment` (lines 157–173). -/
def getLaunchAssessment (launchAngle : ℚ) (club : String) : String :=
  let clubLower := club.toLower
  if stringIncludes clubLower "driver" then
    if launchAngle < 9 then "too low for optimal carry"
    else if launchAngle < 12 then "slightly low"
    else if launchAngle < 15 then "optimal"
    else if launchAngle < 18 then "slightly high"
    else "too high"
  else
    if launchAngle < 10 then "low"
    else if launchAngle < 20 then "mid"
    else if launchAngle < 30 then "high"
    else "very high"

/-- `getSmashFactorAssessment` (lines 175–191). -/
def getSmashFactorAssessment (smashFactor : ℚ) (club : String) : String :=
  let clubLower := club.toLower
  if stringIncludes clubLower "driver" then
    if smashFactor ≥ 1.50 then "excellent (tour-level efficiency)"
    else if smashFactor ≥ 1.48 then "very good"
    else if smashFactor ≥ 1.45 then "good"
    else if smashFactor ≥ 1.40 then "below average"
    else "poor (check strike quality)"
  else
    if smashFactor ≥ 1.38 then "excellent"
    else if smashFactor ≥ 1.33 then "good"
    else if smashFactor ≥ 1.28 then "average"
    else "below average"

/-- The early-return sentence of `generateShotSummary` (line 198):
`Only ${n} shot${n === 1 ? '' : 's'} recorded—more data needed for meaningful
analysis.` -/
def insufficientMessage (n : ℕ) : String :=
  "Only " ++ toString n ++ " shot" ++ (if n = 1 then "" else "s") ++
    " recorded—more data needed for meaningful analysis."

/-- The clause pipeline of `generateShotSummary` (lines 201–291): the ordered
list `parts` as built after the early-return gate, each clause present exactly
when its required `Stats` entries are. -/
noncomputable def summaryParts (analysis : ClubAnalysis) (clubName : String) :
    List String :=
  let distanceParts : List String :=
    match analysis.carryStats with
    | none => []
    | some carry =>
      ["Median carry of " ++ formatNum (carry.median : ℝ) 1 ++ " yards with " ++
        getConsistencyRating carry.stdDev (carry.median : ℝ) ++ " consistency (" ++
        formatNum (carry.min : ℝ) 1 ++ "–" ++ formatNum (carry.max : ℝ) 1 ++ " range)."]
  let dispersionParts : List String :=
    match analysis.carrySideStats with
    | none => []
    | some side =>
      let tendency := if |side.median| > 5 then
          (if side.median < 0 then " with a tendency left" else " with a tendency right")
        else ""
      ["Dispersion is " ++ getDispersionRating side.stdDev ++ " (±" ++
        formatNum side.stdDev 1 ++ " yards)" ++ tendency ++ "."]
  let swingParts : List String :=
    match analysis.clubPathStats, analysis.faceAngleStats, analysis.faceToPathStats with
    | some path, some face, some ftp =>
      ("Swing path is " ++ getPathTendency path.median ++ " (" ++
        formatNum (path.median : ℝ) 1 ++ "°) with a " ++ getFaceTendency face.median ++
        " face (" ++ formatNum (face.median : ℝ) 1 ++ "°), producing a " ++
        getShotShape path.median ftp.median ++ ".") ::
      (if path.stdDev > 3 then
        ["Path consistency could improve—varying by ±" ++ formatNum path.stdDev 1 ++ "°."]
      else [])
    | _, _, _ => []
  let speedParts : List String :=
    match analysis.clubSpeedStats, analysis.smashFactorStats with
    | some speed, some smash =>
      ["Median club speed " ++ formatNum (speed.median : ℝ) 1 ++ " mph (" ++
        getConsistencyRating speed.stdDev (speed.median : ℝ) ++
        " consistency). Smash factor of " ++ formatNum (smash.median : ℝ) 2 ++ " is " ++
        getSmashFactorAssessment smash.median clubName ++ "."]
    | _, _ => []
  let launchParts : List String :=
    match analysis.launchAngleStats with
    | none => []
    | some launch =>
      ["Median launch angle " ++ formatNum (launch.median : ℝ) 1 ++ "° (" ++
        getLaunchAssessment launch.median clubName ++ ")."]
  let spinParts : List String :=
    match analysis.spinRateStats with
    | none => []
    | some spin =>
      ["Median spin rate " ++ formatNum (spin.median : ℝ) 0 ++ " rpm—" ++
        getSpinAssessment spin.median clubName ++ ". Spin consistency is " ++
        getConsistencyRating spin.stdDev (spin.median : ℝ) ++ "."]
  let spinAxisParts : List String :=
    match analysis.spinAxisStats with
    | none => []
    | some axis =>
      if |axis.median| > 5 then
        ["Spin axis tilted " ++ formatNum ((|axis.median| : ℚ) : ℝ) 1 ++ "° " ++
          (if axis.median < 0 then "left (draw spin)" else "right (fade spin)") ++ "."]
      else []
  let attackParts : List String :=
    match analysis.attackAngleStats with
    | none => []
    | some attack =>
      if stringIncludes clubName.toLower "driver" then
        let a := attack.median
        let attackNote := if a < -2 then
            "hitting down too much—try teeing higher or ball forward"
          else if a < 2 then "slightly ascending or level"
          else if a < 5 then "good ascending strike for distance"
          else "very steep upward—may be sacrificing control"
        ["Attack angle of " ++ formatNum (a : ℝ) 1 ++ "° (" ++ attackNote ++ ")."]
      else []
  let consistencyScores : List ℝ :=
    (analysis.carryStats.toList.map fun s => s.stdDev / (s.median : ℝ)) ++
    (analysis.carrySideStats.toList.map fun s => s.stdDev / 20) ++
    (analysis.clubSpeedStats.toList.map fun s => s.stdDev / (s.median : ℝ)) ++
    (analysis.spinRateStats.toList.map fun s => s.stdDev / (s.median : ℝ))
  let repeatabilityParts : List String :=
    if 3 ≤ consistencyScores.length then
      let meanCV := consistencyScores.foldl (· + ·) 0 / (consistencyScores.length : ℝ)
      let overall := if meanCV < 0.03 then "Excellent"
        else if meanCV < 0.06 then "Good"
        else if meanCV < 0.10 then "Moderate"
        else "Work needed on"
      [overall ++ " overall shot-to-shot repeatability."]
    else []
  distanceParts ++ dispersionParts ++ swingParts ++ speedParts ++ launchParts ++
    spinParts ++ spinAxisParts ++ attackParts ++ repeatabilityParts

/-- `generateShotSummary` of `shotAnalysis.ts` (lines 193–294): below 3 shots
the fixed insufficient-data sentence, otherwise the clause pipeline joined with
single spaces. -/
noncomputable def generateShotSummary (strokes : List Stroke) (clubName : String) :
    String :=
  let analysis := analyzeClubGroup strokes
  if analysis.shotCount < 3 then insufficientMessage analysis.shotCount
  else String.intercalate " " (summaryParts analysis clubName)

/-- The rule list of `generateKeyInsights` (lines 303–335): independent
threshold rules, strengths before weaknesses, each appending one fixed
phrase. -/
noncomputable def insightRules (analysis : ClubAnalysis) (clubName : String) :
    List String :=
  (match analysis.smashFactorStats with
    | some s => if s.median ≥ 1.48 then ["Strong ball striking efficiency"] else []
    | none => []) ++
  (match analysis.carrySideStats with
    | some s => if s.stdDev < 8 then ["Tight lateral dispersion"] else []
    | none => []) ++
  (match analysis.clubSpeedStats with
    | some s => if s.stdDev / (s.median : ℝ) < 0.03 then ["Very consistent swing speed"] else []
    | none => []) ++
  (match analysis.faceToPathStats with
    | some s =>
      if |s.median| > 4 then
        [if s.median > 0 then "Face open to path (slice tendency)"
         else "Face closed to path (hook tendency)"]
      else []
    | none => []) ++
  (match analysis.carrySideStats with
    | some s =>
      if |s.median| > 10 then
        ["Consistent miss " ++ (if s.median < 0 then "left" else "right") ++ "—check alignment"]
      else []
    | none => []) ++
  (match analysis.spinRateStats with
    | some s =>
      if stringIncludes clubName.toLower "driver" then
        (if s.median > 3000 then ["High driver spin—losing distance"] else [])
      else []
    | none => []) ++
  (match analysis.clubPathStats with
    | some s => if s.stdDev > 4 then ["Inconsistent swing path"] else []
    | none => [])

/-- `generateKeyInsights` of `shotAnalysis.ts` (lines 297–336): the empty list
below 3 shots, otherwise the rule list. -/
noncomputable def generateKeyInsights (strokes : List Stroke) (clubName : String) :
    List String :=
  let analysis := analyzeClubGroup strokes
  if analysis.shotCount < 3 then [] else insightRules analysis clubName

end ShotAnalysis

namespace ShotAnalysisAvg

/-- `Stats` of the mean-labelled version of `shotAnalysis.ts` (lines 341–347
of the concatenated file): identical shape with `avg` in place of `median`.
As for the median version, the rational radicand `meanSquaredDiff` is stored
and the square root is the derived `Stats.stdDev`. -/
structure Stats where
  avg : ℚ
  min : ℚ
  max : ℚ
  meanSquaredDiff : ℚ
  values : List ℚ
deriving DecidableEq

/-- The `stdDev` field of the mean-labelled `Stats`:
`Math.sqrt(avgSquaredDiff)`. -/
noncomputable def Stats.stdDev (s : Stats) : ℝ :=
  Real.sqrt (s.meanSquaredDiff : ℝ)

/-- `calculateStats` of the mean-labelled version (lines 377–389): arithmetic
mean as the central value, `Math.min`/`Math.max` extremes, mean squared
deviation from the mean with divisor `values.length`. -/
def calculateStats (values : List ℚ) : Option Stats :=
  match values with
  | [] => none
  | v :: vs =>
    let avg := (v :: vs).foldl (· + ·) 0 / ((v :: vs).length : ℚ)
    let squaredDiffs := (v :: vs).map (fun x => (x - avg) ^ 2)
    some
      { avg := avg
        min := vs.foldl Min.min v
        max := vs.foldl Max.max v
        meanSquaredDiff := squaredDiffs.foldl (· + ·) 0 / ((v :: vs).length : ℚ)
        values := v :: vs }

end ShotAnalysisAvg

namespace Viz

/-- `calculateMedian` of `ShotVisualizations.tsx` (lines 20–25): same sorted
middle rule as in `shotAnalysis.ts`, but guarded to return 0 on an empty
list. -/
def calculateMedian (values : List ℚ) : ℚ :=
  if values = [] then 0
  else
    let sorted := values.insertionSort (fun a b => a ≤ b)
    let mid := sorted.length / 2
    if sorted.length % 2 ≠ 0 then sorted.getD mid 0
    else (sorted.getD (mid - 1) 0 + sorted.getD mid 0) / 2

/-- One element of the dispersion chart's `data` array
(`ShotVisualizations.tsx` lines 51–62). -/
structure DispersionDatum where
  carry : ℚ
  side : ℚ
  total : Option ℚ
  idx : ℕ
deriving DecidableEq

/-- The per-stroke mapping step of the dispersion chart's `data` pipeline
(lines 52–61): `null` unless both `Carry` and `CarrySide` are present. -/
def dispersionDatum (i : ℕ) (s : Stroke) : Option DispersionDatum :=
  match getMeasurement s with
  | none => none
  | some m =>
    match m.Carry, m.CarrySide with
    | some c, some sd => some { carry := c, side := sd, total := m.Total, idx := i + 1 }
    | _, _ => none

/-- The dispersion chart's `data` array (lines 51–62): map with index, drop
the nulls. -/
def dispersionData (strokes : List Stroke) : List DispersionDatum :=
  strokes.enum.filterMap fun p => dispersionDatum p.1 p.2

/-- `data.map(d => d.side)` (line 70). -/
def dispersionSides (strokes : List Stroke) : List ℚ :=
  (dispersionData strokes).map (·.side)

/-- `data.map(d => d.carry)` (line 69). -/
def dispersionCarries (strokes : List Stroke) : List ℚ :=
  (dispersionData strokes).map (·.carry)

/-- `maxSide` (line 72): `Math.max(|min side|, |max side|, 15)`. -/
def dispersionMaxSide (strokes : List Stroke) : ℚ :=
  max (|listMin (dispersionSides strokes)|)
    (max (|listMax (dispersionSides strokes)|) 15)

/-- `carryRange` (line 73). -/
def dispersionCarryRange (strokes : List Stroke) : ℚ :=
  listMax (dispersionCarries strokes) - listMin (dispersionCarries strokes)

/-- `minCarry` (line 74): observed minimum minus 20% of the range. -/
def dispersionMinCarry (strokes : List Stroke) : ℚ :=
  listMin (dispersionCarries strokes) - dispersionCarryRange strokes * 0.2

/-- `maxCarry` (line 75): observed maximum plus 20% of the range. -/
def dispersionMaxCarry (strokes : List Stroke) : ℚ :=
  listMax (dispersionCarries strokes) + dispersionCarryRange strokes * 0.2

/-- The divisor `maxCarry - minCarry` of the dispersion chart's `scaleY`
(line 86).  The JS computes `(carry - minCarry) / (maxCarry - minCarry)`
with no guard against a zero-width carry range. -/
def dispersionCarrySpan (strokes : List Stroke) : ℚ :=
  dispersionMaxCarry strokes - dispersionMinCarry strokes

/-- `scaleX` of the dispersion chart (line 85); pixel constants from lines
78–82: `padding.left = 50`, `chartWidth = 280 - 50 - 40 = 190`. -/
def dispersionScaleX (strokes : List Stroke) (side : ℚ) : ℚ :=
  50 + ((side + dispersionMaxSide strokes) / (dispersionMaxSide strokes * 2)) * 190

/-- `scaleY` of the dispersion chart (line 86); pixel constants from lines
78–82: `padding.top = 30`, `chartHeight = 320 - 30 - 40 = 250`.  In `ℚ` the
division is total with `x / 0 = 0`; the JS instead produces a non-finite
(`NaN`) coordinate whenever `dispersionCarrySpan` is zero. -/
def dispersionScaleY (strokes : List Stroke) (carry : ℚ) : ℚ :=
  30 + 250 - ((carry - dispersionMinCarry strokes) / dispersionCarrySpan strokes) * 250

/-- One element of the impact chart's `data` array (lines 249–261). -/
structure ImpactDatum where
  path : ℚ
  face : ℚ
  faceToPath : ℚ
  attackAngle : Option ℚ
  idx : ℕ
deriving DecidableEq

/-- The per-stroke mapping step of the impact chart's `data` pipeline (lines
250–260): `null` unless both `ClubPath` and `FaceAngle` are present; the
`faceToPath` field is `m.FaceToPath ?? (m.FaceAngle - m.ClubPath)`. -/
def impactDatum (i : ℕ) (s : Stroke) : Option ImpactDatum :=
  match getMeasurement s with
  | none => none
  | some m =>
    match m.ClubPath, m.FaceAngle with
    | some p, some f =>
      some { path := p, face := f, faceToPath := m.FaceToPath.getD (f - p),
             attackAngle := m.AttackAngle, idx := i + 1 }
    | _, _ => none

/-- The impact chart's `data` array (lines 249–261). -/
def impactData (strokes : List Stroke) : List ImpactDatum :=
  strokes.enum.filterMap fun p => impactDatum p.1 p.2

/-- `allAngles` (line 268): all path values followed by all face values. -/
def impactAllAngles (strokes : List Stroke) : List ℚ :=
  (impactData strokes).map (·.path) ++ (impactData strokes).map (·.face)

/-- `maxAngle` (line 269): `Math.max(|min of allAngles|, |max of allAngles|, 8)`. -/
def impactMaxAngle (strokes : List Stroke) : ℚ :=
  max (|listMin (impactAllAngles strokes)|)
    (max (|listMax (impactAllAngles strokes)|) 8)

/-- `bound` (line 270): `Math.ceil(maxAngle / 2) * 2`, the round-up of
`maxAngle` to an even integer. -/
def impactBound (strokes : List Stroke) : ℤ :=
  ⌈impactMaxAngle strokes / 2⌉ * 2

/-- The tooltip `shapeLabel` of the impact chart (line 290), as a function of
the face-to-path value it reads. -/
def impactShapeLabel (faceToPath : ℚ) : String :=
  if faceToPath < -2 then "draw" else if faceToPath > 2 then "fade" else "straight"

/-- The dot `color` of the impact chart (lines 361–362), as a function of the
face-to-path value it reads. -/
def impactColor (faceToPath : ℚ) : String :=
  if |faceToPath| < 2 then "var(--green-500)"
  else if faceToPath < 0 then "var(--red)"
  else "var(--blue)"

/-- The shape label shown for a rendered impact point: the source computes it
from `d.faceToPath` (line 290). -/
def impactShapeOf (d : ImpactDatum) : String :=
  impactShapeLabel d.faceToPath

/-- The color chosen for a rendered impact point: the source computes it from
`d.faceToPath` (lines 361–362). -/
def impactColorOf (d : ImpactDatum) : String :=
  impactColor d.faceToPath

/-- One element of the launch chart's `data` array (lines 395–408). -/
structure LaunchDatum where
  angle : ℚ
  speed : ℚ
  spin : Option ℚ
  smash : Option ℚ
  clubSpeed : Option ℚ
  idx : ℕ
deriving DecidableEq

/-- The per-stroke mapping step of the launch chart's `data` pipeline (lines
396–407): `null` unless both `LaunchAngle` and `BallSpeed` are present. -/
def launchDatum (i : ℕ) (s : Stroke) : Option LaunchDatum :=
  match getMeasurement s with
  | none => none
  | some m =>
    match m.LaunchAngle, m.BallSpeed with
    | some a, some sp =>
      some { angle := a, speed := sp, spin := m.SpinRate, smash := m.SmashFactor,
             clubSpeed := m.ClubSpeed, idx := i + 1 }
    | _, _ => none

/-- The launch chart's `data` array (lines 395–408). -/
def launchData (strokes : List Stroke) : List LaunchDatum :=
  strokes.enum.filterMap fun p => launchDatum p.1 p.2

/-- `angles` (line 415). -/
def launchAngles (strokes : List Stroke) : List ℚ :=
  (launchData strokes).map (·.angle)

/-- `speeds` (line 416). -/
def launchSpeeds (strokes : List Stroke) : List ℚ :=
  (launchData strokes).map (·.speed)

/-- `minAngle` (line 417): `Math.max(0, Math.min(...angles) - 2)` — the lower
angle bound is clamped at zero. -/
def launchMinAngle (strokes : List Stroke) : ℚ :=
  max 0 (listMin (launchAngles strokes) - 2)

/-- `maxAngle` (line 418): observed maximum plus 2. -/
def launchMaxAngle (strokes : List Stroke) : ℚ :=
  listMax (launchAngles strokes) + 2

/-- `minSpeed` (line 419): observed minimum minus 5. -/
def launchMinSpeed (strokes : List Stroke) : ℚ :=
  listMin (launchSpeeds strokes) - 5

/-- `maxSpeed` (line 420): observed maximum plus 5. -/
def launchMaxSpeed (strokes : List Stroke) : ℚ :=
  listMax (launchSpeeds strokes) + 5

/-- One element of the trajectory chart's `data` array (lines 561–575); the
landing angle defaults to 40 via `m.LandingAngle ?? 40`. -/
structure TrajectoryDatum where
  carry : ℚ
  height : ℚ
  launch : ℚ
  landing : ℚ
  hangTime : Option ℚ
  total : Option ℚ
  idx : ℕ
deriving DecidableEq

/-- The per-stroke mapping step of the trajectory chart's `data` pipeline
(lines 562–574): `null` unless `Carry`, `MaxHeight` and `LaunchAngle` are all
present. -/
def trajectoryDatum (i : ℕ) (s : Stroke) : Option TrajectoryDatum :=
  match getMeasurement s with
  | none => none
  | some m =>
    match m.Carry, m.MaxHeight, m.LaunchAngle with
    | some c, some h, some la =>
      some { carry := c, height := h, launch := la,
             landing := m.LandingAngle.getD 40, hangTime := m.HangTime,
             total := m.Total, idx := i + 1 }
    | _, _, _ => none

/-- The trajectory chart's `data` array (lines 561–575). -/
def trajectoryData (strokes : List Stroke) : List TrajectoryDatum :=
  strokes.enum.filterMap fun p => trajectoryDatum p.1 p.2

/-- `data.map(d => d.carry)` (line 582). -/
def trajectoryCarries (strokes : List Stroke) : List ℚ :=
  (trajectoryData strokes).map (·.carry)

/-- `data.map(d => d.height)` (line 583). -/
def trajectoryHeights (strokes : List Stroke) : List ℚ :=
  (trajectoryData strokes).map (·.height)

/-- `generatePath` of the trajectory chart (lines 597–610), in data
coordinates: 31 samples at normalized times `t = i / 30`, horizontal position
`t * carry` and height `4 * height * t * (1 - t)` (the parabola peaking at the
midpoint).  The source then applies the linear pixel maps `scaleX` / `scaleY`
(lines 593–594) pointwise to build the SVG path string. -/
def generatePath (carry height : ℚ) : List (ℚ × ℚ) :=
  (List.range 31).map fun i : ℕ =>
    let t : ℚ := (i : ℚ) / 30
    (t * carry, 4 * height * t * (1 - t))

/-- `medianCarry` (line 613). -/
def trajectoryMedianCarry (strokes : List Stroke) : ℚ :=
  calculateMedian (trajectoryCarries strokes)

/-- `medianHeight` (line 614). -/
def trajectoryMedianHeight (strokes : List Stroke) : ℚ :=
  calculateMedian (trajectoryHeights strokes)

/-- `medianPath` (line 615): the reference centerline is the same parabola fed
the median carry and median height of the batch. -/
def trajectoryMedianPath (strokes : List Stroke) : List (ℚ × ℚ) :=
  generatePath (trajectoryMedianCarry strokes) (trajectoryMedianHeight strokes)

end Viz

/-! Concrete stroke batches used to instantiate the claims. -/

/-- Two strokes with no measurement data: below the 3-shot analysis gate. -/
def exTwoStrokes : List Stroke := [{}, {}]

/-- Three strokes with lateral carry offsets −3, 4, 2 (spec §8's dispersion
bound example) and distinct carries. -/
def exDispersionStrokes : List Stroke :=
  [ { Measurement := some { Carry := some 100, CarrySide := some (-3) } },
    { Measurement := some { Carry := some 110, CarrySide := some 4 } },
    { Measurement := some { Carry := some 105, CarrySide := some 2 } } ]

/-- Two strokes whose club-path/face-angle extremes are 9 and −3 (spec §8's
impact bound example). -/
def exImpactStrokes : List Stroke :=
  [ { Measurement :=
        some { ClubPath := some 9, FaceAngle := some (-3), FaceToPath := some (-12) } },
    { Measurement :=
        some { ClubPath := some 1, FaceAngle := some 0, FaceToPath := some (-1) } } ]

/-- Two strokes with launch angles 1 and 10: the observed minimum minus 2 is
negative, so the launch chart's zero clamp is visible. -/
def exLaunchStrokes : List Stroke :=
  [ { Measurement := some { BallSpeed := some 100, LaunchAngle := some 1 } },
    { Measurement := some { BallSpeed := some 110, LaunchAngle := some 10 } } ]

/-- Two strokes with identical carries: passes the dispersion chart's 2-shot
gate while the observed carry range is zero. -/
def exFlatCarryStrokes : List Stroke :=
  [ { Measurement := some { Carry := some 100, CarrySide := some 0 } },
    { Measurement := some { Carry := some 100, CarrySide := some 1 } } ]

/-- A measurement with club path 3 and face angle 5 but no face-to-path. -/
def exImpactMeasurement : Measurement :=
  { ClubPath := some 3, FaceAngle := some 5 }

/-- A stroke with club path and face angle recorded but no face-to-path. -/
def exImpactStroke : Stroke :=
  { Measurement := some exImpactMeasurement }

/-! Specification predicates: the claims' properties, stated over the embedded
definitions. -/

/-- The claimed contract of the median-labelled `calculateStats` on a
non-empty input: some `Stats` whose central value is the median, whose `min` /
`max` are the exact sequence extremes, and whose dispersion is
`sqrt((1/n) · Σ (sample − central)²)` with divisor `n`. -/
def StatsSpecMed (values : List ℚ) : Prop :=
  ∃ s, ShotAnalysis.calculateStats values = some s ∧
    s.median = ShotAnalysis.calculateMedian values ∧
    (s.min ∈ values ∧ ∀ x ∈ values, s.min ≤ x) ∧
    (s.max ∈ values ∧ ∀ x ∈ values, x ≤ s.max) ∧
    s.stdDev = Real.sqrt ((1 / (values.length : ℝ)) *
      ((values.map (fun v : ℚ => ((v : ℝ) - (s.median : ℝ)) ^ 2)).sum))

/-- The claimed contract of the mean-labelled `calculateStats` on a non-empty
input: central value the arithmetic mean, exact extremes, and the same
divisor-`n` root-mean-square dispersion around the mean. -/
def StatsSpecAvg (values : List ℚ) : Prop :=
  ∃ s, ShotAnalysisAvg.calculateStats values = some s ∧
    s.avg = values.sum / (values.length : ℚ) ∧
    (s.min ∈ values ∧ ∀ x ∈ values, s.min ≤ x) ∧
    (s.max ∈ values ∧ ∀ x ∈ values, x ≤ s.max) ∧
    s.stdDev = Real.sqrt ((1 / (values.length : ℝ)) *
      ((values.map (fun v : ℚ => ((v : ℝ) - (s.avg : ℝ)) ^ 2)).sum))

/-- Every per-channel entry of `analyzeClubGroup` is absent exactly when the
channel has zero valid numeric samples. -/
def ChannelsAbsentIffNoSamples (strokes : List Stroke) : Prop :=
  ((ShotAnalysis.analyzeClubGroup strokes).carryStats = none ↔
    ShotAnalysis.extractValues strokes Measurement.Carry = []) ∧
  ((ShotAnalysis.analyzeClubGroup strokes).totalStats = none ↔
    ShotAnalysis.extractValues strokes Measurement.Total = []) ∧
  ((ShotAnalysis.analyzeClubGroup strokes).carrySideStats = none ↔
    ShotAnalysis.extractValues strokes Measurement.CarrySide = []) ∧
  ((ShotAnalysis.analyzeClubGroup strokes).totalSideStats = none ↔
    ShotAnalysis.extractValues strokes Measurement.TotalSide = []) ∧
  ((ShotAnalysis.analyzeClubGroup strokes).clubSpeedStats = none ↔
    ShotAnalysis.extractValues strokes Measurement.ClubSpeed = []) ∧
  ((ShotAnalysis.analyzeClubGroup strokes).ballSpeedStats = none ↔
    ShotAnalysis.extractValues strokes Measurement.BallSpeed = []) ∧
  ((ShotAnalysis.analyzeClubGroup strokes).smashFactorStats = none ↔
    ShotAnalysis.extractValues strokes Measurement.SmashFactor = []) ∧
  ((ShotAnalysis.analyzeClubGroup strokes).launchAngleStats = none ↔
    ShotAnalysis.extractValues strokes Measurement.LaunchAngle = []) ∧
  ((ShotAnalysis.analyzeClubGroup strokes).launchDirectionStats = none ↔
    ShotAnalysis.extractValues strokes Measurement.LaunchDirection = []) ∧
  ((ShotAnalysis.analyzeClubGroup strokes).spinRateStats = none ↔
    ShotAnalysis.extractValues strokes Measurement.SpinRate = []) ∧
  ((ShotAnalysis.analyzeClubGroup strokes).spinAxisStats = none ↔
    ShotAnalysis.extractValues strokes Measurement.SpinAxis = []) ∧
  ((ShotAnalysis.analyzeClubGroup strokes).clubPathStats = none ↔
    ShotAnalysis.extractValues strokes Measurement.ClubPath = []) ∧
  ((ShotAnalysis.analyzeClubGroup strokes).faceAngleStats = none ↔
    ShotAnalysis.extractValues strokes Measurement.FaceAngle = []) ∧
  ((ShotAnalysis.analyzeClubGroup strokes).faceToPathStats = none ↔
    ShotAnalysis.extractValues strokes Measurement.FaceToPath = []) ∧
  ((ShotAnalysis.analyzeClubGroup strokes).attackAngleStats = none ↔
    ShotAnalysis.extractValues strokes Measurement.AttackAngle = []) ∧
  ((ShotAnalysis.analyzeClubGroup strokes).maxHeightStats = none ↔
    ShotAnalysis.extractValues strokes Measurement.MaxHeight = []) ∧
  ((ShotAnalysis.analyzeClubGroup strokes).landingAngleStats = none ↔
    ShotAnalysis.extractValues strokes Measurement.LandingAngle = [])

/-- The claimed dispersion-chart bound derivation: lateral bound
`max(|min side|, |max side|, 15)` and carry bounds padded by 20% of the
observed carry range on each side, all in terms of the genuine extremes of the
extracted data. -/
def DispersionBoundsSpec (strokes : List Stroke) : Prop :=
  ∃ mn mx cmn cmx : ℚ,
    (mn ∈ Viz.dispersionSides strokes ∧ ∀ x ∈ Viz.dispersionSides strokes, mn ≤ x) ∧
    (mx ∈ Viz.dispersionSides strokes ∧ ∀ x ∈ Viz.dispersionSides strokes, x ≤ mx) ∧
    (cmn ∈ Viz.dispersionCarries strokes ∧ ∀ x ∈ Viz.dispersionCarries strokes, cmn ≤ x) ∧
    (cmx ∈ Viz.dispersionCarries strokes ∧ ∀ x ∈ Viz.dispersionCarries strokes, x ≤ cmx) ∧
    Viz.dispersionMaxSide strokes = max (|mn|) (max (|mx|) 15) ∧
    Viz.dispersionMinCarry strokes = cmn - (cmx - cmn) * 0.2 ∧
    Viz.dispersionMaxCarry strokes = cmx + (cmx - cmn) * 0.2

/-- The claimed impact-chart bound derivation: `m` is
`max(|extreme path or face|, 8)` over the combined angle list and the bound is
the smallest even integer at least `m`, computed as `ceil(m/2)·2`. -/
def ImpactBoundSpec (strokes : List Stroke) : Prop :=
  ∃ amn amx : ℚ,
    (amn ∈ Viz.impactAllAngles strokes ∧ ∀ x ∈ Viz.impactAllAngles strokes, amn ≤ x) ∧
    (amx ∈ Viz.impactAllAngles strokes ∧ ∀ x ∈ Viz.impactAllAngles strokes, x ≤ amx) ∧
    Viz.impactMaxAngle strokes = max (|amn|) (max (|amx|) 8) ∧
    Viz.impactBound strokes = ⌈Viz.impactMaxAngle strokes / 2⌉ * 2 ∧
    Even (Viz.impactBound strokes) ∧
    8 ≤ Viz.impactBound strokes ∧
    Viz.impactMaxAngle strokes ≤ (Viz.impactBound strokes : ℚ) ∧
    ∀ k : ℤ, Even k → Viz.impactMaxAngle strokes ≤ (k : ℚ) →
      Viz.impactBound strokes ≤ k

/-- The launch-chart bound derivation as implemented: the angle lower bound is
`max(0, min − 2)` (clamped at zero), the angle upper bound `max + 2`, and the
speed bounds `min − 5` / `max + 5`, in terms of the genuine extremes. -/
def LaunchBoundsSpec (strokes : List Stroke) : Prop :=
  ∃ amn amx smn smx : ℚ,
    (amn ∈ Viz.launchAngles strokes ∧ ∀ x ∈ Viz.launchAngles strokes, amn ≤ x) ∧
    (amx ∈ Viz.launchAngles strokes ∧ ∀ x ∈ Viz.launchAngles strokes, x ≤ amx) ∧
    (smn ∈ Viz.launchSpeeds strokes ∧ ∀ x ∈ Viz.launchSpeeds strokes, smn ≤ x) ∧
    (smx ∈ Viz.launchSpeeds strokes ∧ ∀ x ∈ Viz.launchSpeeds strokes, x ≤ smx) ∧
    Viz.launchMinAngle strokes = max 0 (amn - 2) ∧
    Viz.launchMaxAngle strokes = amx + 2 ∧
    Viz.launchMinSpeed strokes = smn - 5 ∧
    Viz.launchMaxSpeed strokes = smx + 5

/-! Helper lemmas about the fold-based `Math.min` / `Math.max` / sum
computations of the source. -/

theorem foldl_min_le_init {α : Type} [LinearOrder α] (l : List α) (a : α) :
    l.foldl Min.min a ≤ a := by
  induction l generalizing a with
  | nil => exact le_rfl
  | cons b t ih => exact le_trans (ih (min a b)) (min_le_left a b)

theorem foldl_min_le_mem {α : Type} [LinearOrder α] (l : List α) (a : α) :
    ∀ x ∈ l, l.foldl Min.min a ≤ x := by
  induction l generalizing a with
  | nil => intro x hx; cases hx
  | cons b t ih =>
    intro x hx
    rcases List.mem_cons.mp hx with rfl | hx
    · exact le_trans (foldl_min_le_init t (min a x)) (min_le_right a x)
    · exact ih (min a b) x hx

theorem foldl_min_mem {α : Type} [LinearOrder α] (l : List α) (a : α) :
    l.foldl Min.min a = a ∨ l.foldl Min.min a ∈ l := by
  induction l generalizing a with
  | nil => exact Or.inl rfl
  | cons b t ih =>
    simp only [List.foldl_cons]
    rcases ih (min a b) with h | h
    · rcases min_choice a b with hab | hab
      · exact Or.inl (h.trans hab)
      · exact Or.inr (List.mem_cons.mpr (Or.inl (h.trans hab)))
    · exact Or.inr (List.mem_cons.mpr (Or.inr h))

theorem foldl_max_init_le {α : Type} [LinearOrder α] (l : List α) (a : α) :
    a ≤ l.foldl Max.max a := by
  induction l generalizing a with
  | nil => exact le_rfl
  | cons b t ih => exact le_trans (le_max_left a b) (ih (max a b))

theorem foldl_max_mem_le {α : Type} [LinearOrder α] (l : List α) (a : α) :
    ∀ x ∈ l, x ≤ l.foldl Max.max a := by
  induction l generalizing a with
  | nil => intro x hx; cases hx
  | cons b t ih =>
    intro x hx
    rcases List.mem_cons.mp hx with rfl | hx
    · exact le_trans (le_max_right a x) (foldl_max_init_le t (max a x))
    · exact ih (max a b) x hx

theorem foldl_max_mem {α : Type} [LinearOrder α] (l : List α) (a : α) :
    l.foldl Max.max a = a ∨ l.foldl Max.max a ∈ l := by
  induction l generalizing a with
  | nil => exact Or.inl rfl
  | cons b t ih =>
    simp only [List.foldl_cons]
    rcases ih (max a b) with h | h
    · rcases max_choice a b with hab | hab
      · exact Or.inl (h.trans hab)
      · exact Or.inr (List.mem_cons.mpr (Or.inl (h.trans hab)))
    · exact Or.inr (List.mem_cons.mpr (Or.inr h))

/-- `listMin` of a non-empty list is its least element. -/
theorem listMin_spec (l : List ℚ) (h : l ≠ []) :
    listMin l ∈ l ∧ ∀ x ∈ l, listMin l ≤ x := by
  match l with
  | [] => exact absurd rfl h
  | v :: vs =>
    constructor
    · rcases foldl_min_mem vs v with h' | h'
      · exact List.mem_cons.mpr (Or.inl h')
      · exact List.mem_cons.mpr (Or.inr h')
    · intro x hx
      rcases List.mem_cons.mp hx with rfl | hx
      · exact foldl_min_le_init vs x
      · exact foldl_min_le_mem vs v x hx

/-- `listMax` of a non-empty list is its greatest element. -/
theorem listMax_spec (l : List ℚ) (h : l ≠ []) :
    listMax l ∈ l ∧ ∀ x ∈ l, x ≤ listMax l := by
  match l with
  | [] => exact absurd rfl h
  | v :: vs =>
    constructor
    · rcases foldl_max_mem vs v with h' | h'
      · exact List.mem_cons.mpr (Or.inl h')
      · exact List.mem_cons.mpr (Or.inr h')
    · intro x hx
      rcases List.mem_cons.mp hx with rfl | hx
      · exact foldl_max_init_le vs x
      · exact foldl_max_mem_le vs v x hx

/-- `reduce((a, b) => a + b, 0)` is the list sum. -/
theorem foldl_add_eq_sum (l : List ℚ) (a : ℚ) : l.foldl (· + ·) a = a + l.sum := by
  induction l generalizing a with
  | nil => simp
  | cons b t ih => simp [ih, add_assoc]

/-- Casting a rational sum of mapped values to `ℝ` commutes with the map. -/
theorem ratCast_sum_map (l : List ℚ) (f : ℚ → ℚ) :
    (((l.map f).sum : ℚ) : ℝ) = (l.map (fun x => ((f x : ℚ) : ℝ))).sum := by
  induction l with
  | nil => simp
  | cons a t ih => simp [ih]

/-- The mean squared deviation computed by `calculateStats`, cast to `ℝ`, is
`(1/n) · Σ (sample − central)²`. -/
theorem msd_cast (l : List ℚ) (c : ℚ) :
    ((((l.map (fun x => (x - c) ^ 2)).foldl (· + ·) 0 / (l.length : ℚ)) : ℚ) : ℝ) =
      (1 / (l.length : ℝ)) * ((l.map (fun v : ℚ => ((v : ℝ) - (c : ℝ)) ^ 2)).sum) := by
  rw [foldl_add_eq_sum, zero_add, Rat.cast_div, ratCast_sum_map]
  simp only [Rat.cast_pow, Rat.cast_sub]
  rw [Rat.cast_natCast, one_div_mul_eq_div]

/-- The median-labelled `calculateStats` is `undefined` exactly on the empty
sequence. -/
theorem calculateStats_eq_none_iff (values : List ℚ) :
    ShotAnalysis.calculateStats values = none ↔ values = [] := by
  cases values with
  | nil => simp [ShotAnalysis.calculateStats]
  | cons v vs => simp [ShotAnalysis.calculateStats]

/-! The claim theorems. -/

/-- C1: for every non-empty sequence, `computeStats` (both parallel versions)
returns a `Stats` whose central value follows the version's single rule
(median resp. arithmetic mean), whose `min`/`max` are the exact sequence
extremes, and whose dispersion is `sqrt((1/n) · Σ (sample − central)²)` — the
root-mean-square deviation from that same central value with divisor `n`, not
`n − 1`. -/
theorem C1_computeStats_contract (values : List ℚ) (h : values ≠ []) :
    StatsSpecMed values ∧ StatsSpecAvg values := by
  obtain ⟨v, vs, rfl⟩ := List.exists_cons_of_ne_nil h
  constructor
  · refine ⟨_, rfl, rfl, ?_, ?_, ?_⟩
    · exact listMin_spec (v :: vs) (by simp)
    · exact listMax_spec (v :: vs) (by simp)
    · show Real.sqrt _ = Real.sqrt _
      exact congrArg Real.sqrt (msd_cast (v :: vs) (ShotAnalysis.calculateMedian (v :: vs)))
  · have havg : ((v :: vs).foldl (· + ·) 0 / ((v :: vs).length : ℚ)) =
        (v :: vs).sum / ((v :: vs).length : ℚ) := by
      rw [foldl_add_eq_sum, zero_add]
    refine ⟨_, rfl, havg, ?_, ?_, ?_⟩
    · exact listMin_spec (v :: vs) (by simp)
    · exact listMax_spec (v :: vs) (by simp)
    · show Real.sqrt _ = Real.sqrt _
      rw [havg]
      exact congrArg Real.sqrt
        (msd_cast (v :: vs) ((v :: vs).sum / ((v :: vs).length : ℚ)))

/-- C1 witness: the contract instantiated at the concrete sequence `[1, 2, 3]`. -/
theorem C1_computeStats_contract_witness :
    StatsSpecMed [1, 2, 3] ∧ StatsSpecAvg [1, 2, 3] :=
  C1_computeStats_contract [1, 2, 3] (by decide)

/-- C2: `computeStats` returns `undefined` iff its input is empty;
`analyzeClubGroup` on an empty shot list is the `ClubAnalysis` with
`shotCount = 0` and every channel absent; and in general a channel with zero
valid numeric samples is absent from the `ClubAnalysis`. -/
theorem C2_absent_is_first_class :
    (∀ values : List ℚ, ShotAnalysis.calculateStats values = none ↔ values = []) ∧
    ShotAnalysis.analyzeClubGroup [] =
      { shotCount := 0, carryStats := none, totalStats := none,
        carrySideStats := none, totalSideStats := none, clubSpeedStats := none,
        ballSpeedStats := none, smashFactorStats := none,
        launchAngleStats := none, launchDirectionStats := none,
        spinRateStats := none, spinAxisStats := none, clubPathStats := none,
        faceAngleStats := none, faceToPathStats := none,
        attackAngleStats := none, maxHeightStats := none,
        landingAngleStats := none } ∧
    ∀ strokes : List Stroke, ChannelsAbsentIffNoSamples strokes := by
  refine ⟨calculateStats_eq_none_iff, rfl, ?_⟩
  intro strokes
  exact ⟨calculateStats_eq_none_iff _, calculateStats_eq_none_iff _,
    calculateStats_eq_none_iff _, calculateStats_eq_none_iff _,
    calculateStats_eq_none_iff _, calculateStats_eq_none_iff _,
    calculateStats_eq_none_iff _, calculateStats_eq_none_iff _,
    calculateStats_eq_none_iff _, calculateStats_eq_none_iff _,
    calculateStats_eq_none_iff _, calculateStats_eq_none_iff _,
    calculateStats_eq_none_iff _, calculateStats_eq_none_iff _,
    calculateStats_eq_none_iff _, calculateStats_eq_none_iff _,
    calculateStats_eq_none_iff _⟩

/-- C3: below 3 shots, `generateShotSummary` returns the fixed
insufficient-data sentence (for exactly 2 shots the verbatim "Only 2 shots
recorded…" sentence) and `generateKeyInsights` returns the empty list; with 3
or more shots neither entry point takes that early-return branch — the
threshold 3 is enforced identically in both. -/
theorem C3_three_shot_gate (strokes : List Stroke) (club : String) :
    (strokes.length < 3 →
      ShotAnalysis.generateShotSummary strokes club =
          ShotAnalysis.insufficientMessage strokes.length ∧
        ShotAnalysis.generateKeyInsights strokes club = []) ∧
    (strokes.length = 2 →
      ShotAnalysis.generateShotSummary strokes club =
        "Only 2 shots recorded—more data needed for meaningful analysis.") ∧
    (3 ≤ strokes.length →
      ShotAnalysis.generateShotSummary strokes club =
          String.intercalate " "
            (ShotAnalysis.summaryParts (ShotAnalysis.analyzeClubGroup strokes) club) ∧
        ShotAnalysis.generateKeyInsights strokes club =
          ShotAnalysis.insightRules (ShotAnalysis.analyzeClubGroup strokes) club) := by
  have hc : (ShotAnalysis.analyzeClubGroup strokes).shotCount = strokes.length := rfl
  have hsum : ∀ _ : strokes.length < 3,
      ShotAnalysis.generateShotSummary strokes club =
        ShotAnalysis.insufficientMessage strokes.length := by
    intro hlt
    simp only [ShotAnalysis.generateShotSummary, hc]
    rw [if_pos hlt]
  have hins : ∀ _ : strokes.length < 3,
      ShotAnalysis.generateKeyInsights strokes club = [] := by
    intro hlt
    simp only [ShotAnalysis.generateKeyInsights, hc]
    rw [if_pos hlt]
  refine ⟨fun hlt => ⟨hsum hlt, hins hlt⟩, fun h2 => ?_, fun hge => ⟨?_, ?_⟩⟩
  · rw [hsum (by omega), h2]; rfl
  · simp only [ShotAnalysis.generateShotSummary, hc]
    rw [if_neg (by omega)]
  · simp only [ShotAnalysis.generateKeyInsights, hc]
    rw [if_neg (by omega)]

/-- C3 witness: the gate at a concrete 2-shot batch. -/
theorem C3_three_shot_gate_witness :
    ShotAnalysis.generateShotSummary exTwoStrokes "Driver" =
        "Only 2 shots recorded—more data needed for meaningful analysis." ∧
      ShotAnalysis.generateKeyInsights exTwoStrokes "Driver" = [] :=
  ⟨(C3_three_shot_gate exTwoStrokes "Driver").2.1 (by decide),
   ((C3_three_shot_gate exTwoStrokes "Driver").1 (by decide)).2⟩

/-- C4: the shot-shape label's base is "draw" for face-to-path below −2,
"fade" above 2, otherwise "straight"; the prefix "strong " appears exactly
when the magnitude exceeds 5; the club-path argument is ignored; and the
spec's four boundary examples hold. -/
theorem C4_shot_shape_classification :
    (∀ p p' f : ℚ, ShotAnalysis.getShotShape p f = ShotAnalysis.getShotShape p' f) ∧
    (∀ p f : ℚ, ShotAnalysis.getShotShape p f =
      (if |f| > 5 then "strong " else "") ++
        (if f < -2 then "draw" else if f > 2 then "fade" else "straight")) ∧
    ShotAnalysis.getShotShape 0 2.01 = "fade" ∧
    ShotAnalysis.getShotShape 0 (-2.01) = "draw" ∧
    ShotAnalysis.getShotShape 0 0 = "straight" ∧
    ShotAnalysis.getShotShape 0 5.01 = "strong fade" := by
  refine ⟨fun p p' f => rfl, fun p f => rfl, ?_, ?_, ?_, ?_⟩
  · rw [show ShotAnalysis.getShotShape 0 2.01 =
      (if |(2.01 : ℚ)| > 5 then "strong " else "") ++
        (if (2.01 : ℚ) < -2 then "draw"
          else if (2.01 : ℚ) > 2 then "fade" else "straight") from rfl]
    rw [abs_of_pos (by norm_num : (0 : ℚ) < 2.01)]
    rw [if_neg (by norm_num), if_neg (by norm_num), if_pos (by norm_num)]
    rfl
  · rw [show ShotAnalysis.getShotShape 0 (-2.01) =
      (if |(-2.01 : ℚ)| > 5 then "strong " else "") ++
        (if (-2.01 : ℚ) < -2 then "draw"
          else if (-2.01 : ℚ) > 2 then "fade" else "straight") from rfl]
    rw [abs_of_neg (by norm_num : (-2.01 : ℚ) < 0)]
    rw [if_neg (by norm_num), if_pos (by norm_num)]
    rfl
  · rfl
  · rw [show ShotAnalysis.getShotShape 0 5.01 =
      (if |(5.01 : ℚ)| > 5 then "strong " else "") ++
        (if (5.01 : ℚ) < -2 then "draw"
          else if (5.01 : ℚ) > 2 then "fade" else "straight") from rfl]
    rw [abs_of_pos (by norm_num : (0 : ℚ) < 5.01)]
    rw [if_pos (by norm_num), if_neg (by norm_num), if_pos (by norm_num)]
    rfl

/-- C5: whenever the dispersion chart's 2-shot gate passes, its lateral bound
is `max(|min lateral|, |max lateral|, 15)` and its carry bounds are the
observed extremes padded by 20% of the observed carry range; lateral offsets
[−3, 4, 2] yield the bound 15. -/
theorem C5_dispersion_bounds :
    (∀ strokes : List Stroke, 2 ≤ (Viz.dispersionData strokes).length →
      DispersionBoundsSpec strokes) ∧
    Viz.dispersionMaxSide exDispersionStrokes = 15 := by
  constructor
  · intro strokes h
    have hne : Viz.dispersionData strokes ≠ [] := by
      intro hc; rw [hc] at h; simp at h
    have hs : Viz.dispersionSides strokes ≠ [] := by
      unfold Viz.dispersionSides
      intro hc
      exact hne (List.map_eq_nil_iff.mp hc)
    have hcar : Viz.dispersionCarries strokes ≠ [] := by
      unfold Viz.dispersionCarries
      intro hc
      exact hne (List.map_eq_nil_iff.mp hc)
    exact ⟨listMin (Viz.dispersionSides strokes), listMax (Viz.dispersionSides strokes),
      listMin (Viz.dispersionCarries strokes), listMax (Viz.dispersionCarries strokes),
      listMin_spec _ hs, listMax_spec _ hs, listMin_spec _ hcar, listMax_spec _ hcar,
      rfl, rfl, rfl⟩
  · decide

/-- C5 witness: the bound derivation at the concrete three-shot batch with
lateral offsets −3, 4, 2. -/
theorem C5_dispersion_bounds_witness : DispersionBoundsSpec exDispersionStrokes :=
  C5_dispersion_bounds.1 exDispersionStrokes (by decide)

/-- C6: whenever the impact chart's 2-shot gate passes, its symmetric bound is
`ceil(m/2)·2` for `m = max(|extreme path|, |extreme face|, 8)` — the smallest
even integer at least `m`, hence always even and at least 8; extremes 9 and −3
yield the bound 10. -/
theorem C6_impact_bound :
    (∀ strokes : List Stroke, 2 ≤ (Viz.impactData strokes).length →
      ImpactBoundSpec strokes) ∧
    Viz.impactBound exImpactStrokes = 10 := by
  constructor
  · intro strokes h
    have hne : Viz.impactData strokes ≠ [] := by
      intro hc; rw [hc] at h; simp at h
    have ha : Viz.impactAllAngles strokes ≠ [] := by
      unfold Viz.impactAllAngles
      intro hc
      rcases List.append_eq_nil.mp hc with ⟨h1, _⟩
      exact hne (List.map_eq_nil_iff.mp h1)
    have hm8 : (8 : ℚ) ≤ Viz.impactMaxAngle strokes :=
      le_max_of_le_right (le_max_right _ _)
    have hceil : Viz.impactMaxAngle strokes / 2 ≤ (⌈Viz.impactMaxAngle strokes / 2⌉ : ℚ) :=
      Int.le_ceil _
    have hmb : Viz.impactMaxAngle strokes ≤ ((Viz.impactBound strokes : ℤ) : ℚ) := by
      unfold Viz.impactBound
      push_cast
      linarith
    refine ⟨listMin (Viz.impactAllAngles strokes), listMax (Viz.impactAllAngles strokes),
      listMin_spec _ ha, listMax_spec _ ha, rfl, rfl, ⟨⌈Viz.impactMaxAngle strokes / 2⌉, by
        unfold Viz.impactBound; ring⟩, ?_, hmb, ?_⟩
    · have : (8 : ℚ) ≤ ((Viz.impactBound strokes : ℤ) : ℚ) := le_trans hm8 hmb
      exact_mod_cast this
    · intro k hk hmk
      obtain ⟨r, rfl⟩ := hk
      have hr : Viz.impactMaxAngle strokes / 2 ≤ (r : ℚ) := by
        push_cast at hmk
        linarith
      have hcr : ⌈Viz.impactMaxAngle strokes / 2⌉ ≤ r := Int.ceil_le.mpr hr
      unfold Viz.impactBound
      omega
  · have h9 : Viz.impactMaxAngle exImpactStrokes = 9 := by decide
    unfold Viz.impactBound
    rw [h9]
    have h5 : ⌈(9 : ℚ) / 2⌉ = 5 := by rw [Int.ceil_eq_iff]; norm_num
    rw [h5]
    rfl

/-- C6 witness: the bound derivation at the concrete batch with path/face
extremes 9 and −3. -/
theorem C6_impact_bound_witness : ImpactBoundSpec exImpactStrokes :=
  C6_impact_bound.1 exImpactStrokes (by decide)

/-- C7 counterexample: the launch chart's lower angle bound is clamped at
zero (`Math.max(0, min − 2)`), so for observed launch angles [1, 10] the
computed bound is 0, not the claimed `min − 2 = −1`, even though the 2-shot
gate passes. -/
theorem C7_launch_lower_bound_counterexample :
    2 ≤ (Viz.launchData exLaunchStrokes).length ∧
    Viz.launchAngles exLaunchStrokes = [1, 10] ∧
    Viz.launchMinAngle exLaunchStrokes = 0 ∧
    Viz.launchMinAngle exLaunchStrokes ≠ 1 - 2 := by
  have h0 : Viz.launchMinAngle exLaunchStrokes = 0 := by
    have h : Viz.launchAngles exLaunchStrokes = [1, 10] := by decide
    unfold Viz.launchMinAngle
    rw [h]
    norm_num [listMin, min_def, max_def]
  exact ⟨by decide, by decide, h0, by rw [h0]; norm_num⟩

/-- C7 (amended): whenever the launch chart's 2-shot gate passes, the angle
bounds are `max(0, min − 2)` and `max + 2` and the speed bounds `min − 5` and
`max + 5`, in terms of the observed extremes. -/
theorem C7_launch_bounds_amended (strokes : List Stroke)
    (h : 2 ≤ (Viz.launchData strokes).length) : LaunchBoundsSpec strokes := by
  have hne : Viz.launchData strokes ≠ [] := by
    intro hc; rw [hc] at h; simp at h
  have ha : Viz.launchAngles strokes ≠ [] := by
    unfold Viz.launchAngles
    intro hc
    exact hne (List.map_eq_nil_iff.mp hc)
  have hs : Viz.launchSpeeds strokes ≠ [] := by
    unfold Viz.launchSpeeds
    intro hc
    exact hne (List.map_eq_nil_iff.mp hc)
  exact ⟨listMin (Viz.launchAngles strokes), listMax (Viz.launchAngles strokes),
    listMin (Viz.launchSpeeds strokes), listMax (Viz.launchSpeeds strokes),
    listMin_spec _ ha, listMax_spec _ ha, listMin_spec _ hs, listMax_spec _ hs,
    rfl, rfl, rfl, rfl⟩

/-- C7 witness: the amended bound derivation at the concrete batch with launch
angles 1 and 10. -/
theorem C7_launch_bounds_amended_witness : LaunchBoundsSpec exLaunchStrokes :=
  C7_launch_bounds_amended exLaunchStrokes (by decide)

/-- C8: the trajectory chart's flight path samples the parabola
`height(t) = 4·H·t·(1−t)` at `t = i/30` for `i = 0 … 30`, at horizontal
position `t·carry`; it starts and ends at height 0, attains exactly the input
height at the midpoint (carry 200, height 30 gives (100, 30) at `t = 1/2`),
and the reference centerline is the same parabola fed the median carry and
median height of the batch. -/
theorem C8_trajectory_parabola :
    (∀ carry height : ℚ, ∀ i : ℕ, i ≤ 30 →
      (Viz.generatePath carry height).getD i (0, 0) =
        ((i : ℚ) / 30 * carry, 4 * height * ((i : ℚ) / 30) * (1 - (i : ℚ) / 30))) ∧
    (∀ carry height : ℚ,
      (Viz.generatePath carry height).length = 31 ∧
      (Viz.generatePath carry height).getD 0 (0, 0) = (0, 0) ∧
      (Viz.generatePath carry height).getD 15 (0, 0) = (carry / 2, height) ∧
      (Viz.generatePath carry height).getD 30 (0, 0) = (carry, 0)) ∧
    (Viz.generatePath 200 30).getD 15 (0, 0) = (100, 30) ∧
    (∀ strokes : List Stroke, Viz.trajectoryMedianPath strokes =
      Viz.generatePath (Viz.calculateMedian (Viz.trajectoryCarries strokes))
        (Viz.calculateMedian (Viz.trajectoryHeights strokes))) := by
  have hpt : ∀ carry height : ℚ, ∀ i : ℕ, i < 31 →
      (Viz.generatePath carry height).getD i (0, 0) =
        ((i : ℚ) / 30 * carry, 4 * height * ((i : ℚ) / 30) * (1 - (i : ℚ) / 30)) := by
    intro carry height i hi
    unfold Viz.generatePath
    rw [List.getD_eq_getElem?_getD, List.getElem?_map, List.getElem?_range hi]
    rfl
  refine ⟨fun c h i hi => hpt c h i (by omega), fun c h => ⟨?_, ?_, ?_, ?_⟩, ?_, fun _ => rfl⟩
  · simp [Viz.generatePath]
  · rw [hpt c h 0 (by omega)]
    norm_num
  · rw [hpt c h 15 (by omega)]
    have h15 : ((15 : ℕ) : ℚ) / 30 = 1 / 2 := by norm_num
    rw [h15]
    simp only [Prod.mk.injEq]
    exact ⟨by ring, by ring⟩
  · rw [hpt c h 30 (by omega)]
    have h30 : ((30 : ℕ) : ℚ) / 30 = 1 := by norm_num
    rw [h30]
    simp only [Prod.mk.injEq]
    exact ⟨by ring, by ring⟩
  · rw [hpt 200 30 15 (by omega)]
    norm_num

/-- C8 witness: the general sample formula instantiated at carry 200, height
30 and the midpoint sample `i = 15`. -/
theorem C8_trajectory_parabola_witness :
    (Viz.generatePath 200 30).getD 15 (0, 0) =
      (((15 : ℕ) : ℚ) / 30 * 200, 4 * 30 * (((15 : ℕ) : ℚ) / 30) * (1 - ((15 : ℕ) : ℚ) / 30)) :=
  C8_trajectory_parabola.1 200 30 15 (by decide)

/-- C9: the dispersion chart's carry scale divides by the padded carry range
`maxCarry − minCarry` with no zero-width guard: for two shots with identical
carries the 2-shot gate passes while that divisor is exactly 0, so the JS
`scaleY` computes `(carry − minCarry) / 0` — a non-finite coordinate,
contradicting the claim that a passed gate rules out degenerate scale
computations. -/
theorem C9_dispersion_zero_range_division :
    2 ≤ (Viz.dispersionData exFlatCarryStrokes).length ∧
    Viz.dispersionCarrySpan exFlatCarryStrokes = 0 := by
  refine ⟨by decide, ?_⟩
  have h : Viz.dispersionCarries exFlatCarryStrokes = [100, 100] := by decide
  unfold Viz.dispersionCarrySpan Viz.dispersionMaxCarry Viz.dispersionMinCarry
    Viz.dispersionCarryRange
  rw [h]
  norm_num [listMin, listMax, min_def, max_def]

/-- C10: in the impact chart, a shot with club path and face angle present
uses the recorded face-to-path value when present and derives it as
`face − path` when absent, and both the tooltip shape label and the dot color
classification read exactly that per-point value. -/
theorem C10_impact_face_to_path_fallback (i : ℕ) (s : Stroke) (m : Measurement)
    (p f : ℚ) (hm : getMeasurement s = some m) (hp : m.ClubPath = some p)
    (hf : m.FaceAngle = some f) :
    ∃ d, Viz.impactDatum i s = some d ∧ d.path = p ∧ d.face = f ∧
      (∀ v, m.FaceToPath = some v → d.faceToPath = v) ∧
      (m.FaceToPath = none → d.faceToPath = f - p) ∧
      Viz.impactShapeOf d = Viz.impactShapeLabel d.faceToPath ∧
      Viz.impactColorOf d = Viz.impactColor d.faceToPath := by
  refine ⟨⟨p, f, m.FaceToPath.getD (f - p), m.AttackAngle, i + 1⟩,
    ?_, rfl, rfl, ?_, ?_, rfl, rfl⟩
  · simp only [Viz.impactDatum, hm, hp, hf]
  · intro v hv
    simp [hv]
  · intro hv
    simp [hv]

/-- C10 witness: a concrete stroke with club path 3 and face angle 5 and no
recorded face-to-path. -/
theorem C10_impact_face_to_path_fallback_witness :
    ∃ d, Viz.impactDatum 0 exImpactStroke = some d ∧ d.path = 3 ∧ d.face = 5 ∧
      (∀ v, exImpactMeasurement.FaceToPath = some v → d.faceToPath = v) ∧
      (exImpactMeasurement.FaceToPath = none → d.faceToPath = 5 - 3) ∧
      Viz.impactShapeOf d = Viz.impactShapeLabel d.faceToPath ∧
      Viz.impactColorOf d = Viz.impactColor d.faceToPath :=
  C10_impact_face_to_path_fallback 0 exImpactStroke exImpactMeasurement 3 5 rfl rfl rfl

end Golf
